import Mathlib

/-!
Shallow embedding of `src/kroger.py` (slyt/kroger-mcp): a Kroger API client
consisting of a token manager (`get_access_token`) and two resource
operations (`get_nearest_store_information`, `search_products`).

Modelling conventions:
- Parsed JSON response bodies are values of the inductive `Json`; JSON
  numbers relevant to the claims (`expires_in`) are integers.
- Python exceptions become the `PyError` inductive, one constructor per
  exception class the code can raise (`httpx.HTTPStatusError`, `ValueError`,
  `KeyError`, `IndexError`, `TypeError`).
- `time.time()` is an integer parameter `now`.
- The network is an oracle: each HTTP call the code would make consumes a
  given `HttpResponse` argument, and every result records in `networkCalls`
  how many HTTP calls were performed on that path.
- Python truthiness (`if not data.get("data")`, `if self.access_token and ...`)
  is modelled exactly by `pyTruthy`.
-/

/-- A parsed JSON value, as returned by `response.json()`. -/
inductive Json where
  | null
  | bool (b : Bool)
  | num (n : Int)
  | str (s : String)
  | arr (elems : List Json)
  | obj (fields : List (String × Json))
deriving Repr

/-- Python exceptions the embedded code can raise. -/
inductive PyError where
  | httpStatusError (status : Nat) (body : Json)
  | valueError (msg : String)
  | keyError (key : String)
  | indexError
  | typeError
deriving Repr

/-- Python truthiness of a JSON value: `None`, `False`, `0`, `""`, `[]`, `\x7b\x7d`
are falsy, everything else is truthy. -/
def pyTruthy : Json → Bool
  | .null => false
  | .bool b => b
  | .num n => n != 0
  | .str s => s != ""
  | .arr elems => !elems.isEmpty
  | .obj fields => !fields.isEmpty

/-- Python `dict.get(key)`: `some v` when the body is an object containing
`key`, `none` otherwise (for a missing key, `dict.get` returns `None`). -/
def dictGet : Json → String → Option Json
  | .obj fields, key => lookupField fields key
  | _, _ => none
where
  lookupField : List (String × Json) → String → Option Json
    | [], _ => none
    | (k, v) :: rest, key => if k = key then some v else lookupField rest key

/-- Python subscripting `x[0]`: head of a list, first character of a string;
a dict raises `KeyError`, other values raise `TypeError`. -/
def pySubscriptZero : Json → Except PyError Json
  | .arr (x :: _) => .ok x
  | .arr [] => .error .indexError
  | .str s =>
    match s.toList with
    | c :: _ => .ok (.str (String.mk [c]))
    | [] => .error .indexError
  | .obj _ => .error (.keyError "0")
  | _ => .error .typeError

/-- An HTTP response as the code observes it: status code and parsed JSON
body (`response.json()`). -/
structure HttpResponse where
  status : Nat
  json : Json
deriving Repr

/-- `response.raise_for_status()` in httpx raises `HTTPStatusError` exactly
when the status is not 2xx. -/
def isSuccess (status : Nat) : Bool :=
  200 ≤ status && status < 300

/-- Python truthiness of an optional string (`os.getenv` result): `None` and
`""` are falsy. -/
def strTruthy : Option String → Bool
  | none => false
  | some s => s != ""

/-- The mutable attributes of a `KrogerAPI` instance, as set in `__init__`.
`access_token` is `Option Json` because Python assigns
`token_data["access_token"]` without a type check; `token_expires_at` holds
`time.time() + expires_in`. -/
structure KrogerState where
  client_id : Option String
  client_secret : Option String
  base_url : String
  access_token : Option Json
  token_expires_at : Option Int
  location_id : Option Json
deriving Repr

/-- `KrogerAPI.__init__`: store the environment credentials and the constant
attributes, then raise `ValueError` if either credential is falsy
(absent or empty). The constructed object only survives a truthy check. -/
def KrogerAPI.init (kroger_client_id kroger_client_secret : Option String) :
    Except PyError KrogerState :=
  let s : KrogerState :=
    { client_id := kroger_client_id
      client_secret := kroger_client_secret
      base_url := "https://api.kroger.com/v1"
      access_token := none
      token_expires_at := none
      location_id := none }
  if !strTruthy s.client_id || !strTruthy s.client_secret then
    .error (.valueError "Kroger API credentials not found in environment variables")
  else
    .ok s

/-- Line 52 of the source: `self.access_token and self.token_expires_at and
self.token_expires_at > time.time()` with Python truthiness on both
attributes. -/
def cachedTokenValid (s : KrogerState) (now : Int) : Bool :=
  (match s.access_token with
    | none => false
    | some j => pyTruthy j)
  && (match s.token_expires_at with
    | none => false
    | some e => (e != 0) && decide (now < e))

/-- Result of `get_access_token`: the returned token or the raised exception,
the instance attributes after the call, and how many HTTP calls were made. -/
structure TokenFetchResult where
  result : Except PyError Json
  state : KrogerState
  networkCalls : Nat
deriving Repr

/-- `KrogerAPI.get_access_token`: return the cached token when line 52's check
passes; otherwise `httpx.post` to the token endpoint (`authResp` is the
oracle response), `raise_for_status`, then assign
`self.access_token = token_data["access_token"]` and
`self.token_expires_at = time.time() + token_data["expires_in"]` in that
order, so a missing or non-numeric `expires_in` leaves a partially updated
instance. -/
def get_access_token (s : KrogerState) (now : Int) (authResp : HttpResponse) :
    TokenFetchResult :=
  if cachedTokenValid s now then
    { result := .ok (s.access_token.getD .null), state := s, networkCalls := 0 }
  else if !isSuccess authResp.status then
    { result := .error (.httpStatusError authResp.status authResp.json)
      state := s, networkCalls := 1 }
  else
    match dictGet authResp.json "access_token" with
    | none =>
      { result := .error (.keyError "access_token"), state := s, networkCalls := 1 }
    | some tokJ =>
      let s1 := { s with access_token := some tokJ }
      match dictGet authResp.json "expires_in" with
      | none =>
        { result := .error (.keyError "expires_in"), state := s1, networkCalls := 1 }
      | some (.num n) =>
        { result := .ok tokJ
          state := { s1 with token_expires_at := some (now + n) }
          networkCalls := 1 }
      | some _ =>
        { result := .error .typeError, state := s1, networkCalls := 1 }

/-- Result of a resource operation: the returned JSON value or the raised
exception, the instance attributes after the call, and how many HTTP calls
were made. -/
structure OpResult where
  result : Except PyError Json
  state : KrogerState
  networkCalls : Nat
deriving Repr

/-- `KrogerAPI.get_nearest_store_information`: call `get_access_token` (its
exception propagates), `httpx.get` the locations endpoint (`locResp` is the
oracle response), `raise_for_status` (the `except` clause logs and re-raises
the same exception), then raise `ValueError` when `data.get("data")` is
falsy — empty array or missing key — and otherwise return `data["data"][0]`. -/
def get_nearest_store_information (s : KrogerState) (now : Int)
    (authResp locResp : HttpResponse) (zip_code : String) : OpResult :=
  let t := get_access_token s now authResp
  match t.result with
  | .error e => { result := .error e, state := t.state, networkCalls := t.networkCalls }
  | .ok _token =>
    if !isSuccess locResp.status then
      { result := .error (.httpStatusError locResp.status locResp.json)
        state := t.state, networkCalls := t.networkCalls + 1 }
    else
      let d := (dictGet locResp.json "data").getD .null
      if !pyTruthy d then
        { result := .error (.valueError ("No locations found for zip code: " ++ zip_code))
          state := t.state, networkCalls := t.networkCalls + 1 }
      else
        { result := pySubscriptZero d
          state := t.state, networkCalls := t.networkCalls + 1 }

/-- `KrogerAPI.search_products`: call `get_access_token` (its exception
propagates), `httpx.get` the products endpoint (`prodResp` is the oracle
response), `raise_for_status` (both `except` clauses re-raise), then return
`data.get("data", [])`. The query parameters `store_id`, `query` and `limit`
shape the request; the oracle response already reflects them. -/
def search_products (s : KrogerState) (now : Int)
    (authResp prodResp : HttpResponse) (store_id query : String) (limit : Int) :
    OpResult :=
  let t := get_access_token s now authResp
  match t.result with
  | .error e => { result := .error e, state := t.state, networkCalls := t.networkCalls }
  | .ok _token =>
    if !isSuccess prodResp.status then
      { result := .error (.httpStatusError prodResp.status prodResp.json)
        state := t.state, networkCalls := t.networkCalls + 1 }
    else
      { result := .ok ((dictGet prodResp.json "data").getD (.arr []))
        state := t.state, networkCalls := t.networkCalls + 1 }

/-- A freshly constructed instance with both credentials present (the result
of a successful `KrogerAPI.__init__`), used for concrete evaluations. -/
def freshState : KrogerState :=
  { client_id := some "id"
    client_secret := some "secret"
    base_url := "https://api.kroger.com/v1"
    access_token := none
    token_expires_at := none
    location_id := none }

/-- A successful token-endpoint response used for concrete evaluations. -/
def authOk : HttpResponse :=
  { status := 200
    json := .obj [("access_token", .str "T1"), ("expires_in", .num 3600)] }


/-- A state holding a cached token `"T1"` that expires at time 100. -/
def cachedState : KrogerState :=
  { freshState with access_token := some (.str "T1"), token_expires_at := some 100 }

/-- A failing HTTP response (server error, JSON error body). -/
def resp500 : HttpResponse :=
  { status := 500, json := .obj [("error", .str "boom")] }

/-- Refresh paths of `get_access_token` always perform exactly one HTTP call. -/
theorem get_access_token_calls_of_miss (s : KrogerState) (now : Int)
    (r : HttpResponse) (h : cachedTokenValid s now = false) :
    (get_access_token s now r).networkCalls = 1 := by
  unfold get_access_token
  rw [h]
  simp only [Bool.false_eq_true, if_false]
  split
  · rfl
  · split
    · rfl
    · split <;> rfl

/-- C6: a cached token whose expiry timestamp equals the current time exactly
fails the reuse check (which requires `token_expires_at` strictly greater
than `now`) and `get_access_token` performs a refresh: one HTTP call to the
token endpoint, with no clock-skew margin. -/
theorem expiry_equal_now_is_expired (s : KrogerState) (now : Int)
    (authResp : HttpResponse) (he : s.token_expires_at = some now) :
    cachedTokenValid s now = false ∧
    (get_access_token s now authResp).networkCalls = 1 := by
  have hv : cachedTokenValid s now = false := by
    simp [cachedTokenValid, he]
  exact ⟨hv, get_access_token_calls_of_miss s now authResp hv⟩

/-- A state holding a cached token `"T1"` that expires at time 50. -/
def cachedAt50 : KrogerState :=
  { freshState with access_token := some (.str "T1"), token_expires_at := some 50 }

/-- Witness for C6 at a concrete state: token cached, expiry 50, current time
50 — treated as expired, one network call performed. -/
theorem expiry_equal_now_is_expired_witness :
    cachedTokenValid cachedAt50 50 = false ∧
    (get_access_token cachedAt50 50 authOk).networkCalls = 1 :=
  expiry_equal_now_is_expired cachedAt50 50 authOk rfl

/-- C4: when the token exchange fails with a non-success HTTP status,
`get_access_token` leaves every instance attribute exactly as it was (so a
previously cached token — valid or not — is untouched and no partial token
is cached), and when the exchange was actually attempted (cache miss) the
call raises `HTTPStatusError`. -/
theorem failed_refresh_preserves_state (s : KrogerState) (now : Int)
    (authResp : HttpResponse) (hfail : isSuccess authResp.status = false) :
    (get_access_token s now authResp).state = s ∧
    (cachedTokenValid s now = false →
      (get_access_token s now authResp).result =
        .error (.httpStatusError authResp.status authResp.json)) := by
  by_cases hv : cachedTokenValid s now = true
  · simp [get_access_token, hv]
  · simp only [Bool.not_eq_true] at hv
    simp [get_access_token, hv, hfail]

/-- Witness for C4 at a concrete state: a cached valid token survives a
failed refresh attempt untouched. -/
theorem failed_refresh_preserves_state_witness :
    (get_access_token cachedState 200 resp500).state = cachedState ∧
    (get_access_token cachedState 200 resp500).result =
      .error (.httpStatusError 500 (.obj [("error", .str "boom")])) :=
  ⟨(failed_refresh_preserves_state cachedState 200 resp500 rfl).1,
   (failed_refresh_preserves_state cachedState 200 resp500 rfl).2 rfl⟩

/-- C5: a successful token exchange returning `access_token` and `expires_in`
caches exactly that access token with `token_expires_at = now + expires_in`
and returns the access token. -/
theorem successful_refresh_caches (s : KrogerState) (now : Int)
    (authResp : HttpResponse) (tok : Json) (n : Int)
    (hmiss : cachedTokenValid s now = false)
    (hok : isSuccess authResp.status = true)
    (ha : dictGet authResp.json "access_token" = some tok)
    (he : dictGet authResp.json "expires_in" = some (.num n)) :
    (get_access_token s now authResp).result = .ok tok ∧
    (get_access_token s now authResp).state =
      { s with access_token := some tok, token_expires_at := some (now + n) } := by
  simp [get_access_token, hmiss, hok, ha, he]

/-- Witness for C5: a fresh instance exchanging at time 0 against `authOk`
caches token `"T1"` expiring at `0 + 3600` and returns it. -/
theorem successful_refresh_caches_witness :
    (get_access_token freshState 0 authOk).result = .ok (.str "T1") ∧
    (get_access_token freshState 0 authOk).state =
      { freshState with access_token := some (.str "T1"), token_expires_at := some (0 + 3600) } :=
  successful_refresh_caches freshState 0 authOk (.str "T1") 3600 rfl rfl rfl rfl

/-- C8: when either environment credential is absent, `KrogerAPI.__init__`
raises `ValueError` immediately — construction never succeeds with a
missing credential, so the failure cannot be deferred to a later
operation. -/
theorem missing_credentials_fatal (cid cs : Option String)
    (h : cid = none ∨ cs = none) :
    KrogerAPI.init cid cs =
      .error (.valueError "Kroger API credentials not found in environment variables") := by
  rcases h with h | h <;> subst h <;> simp [KrogerAPI.init, strTruthy]

/-- Witness for C8: a missing client id is fatal at construction time. -/
theorem missing_credentials_fatal_witness :
    KrogerAPI.init none (some "secret") =
      .error (.valueError "Kroger API credentials not found in environment variables") :=
  missing_credentials_fatal none (some "secret") (Or.inl rfl)

/-- A state holding a cached token that is the empty string, expiring at
time 100 — reachable when the token endpoint returns `access_token: ""`. -/
def emptyTokenState : KrogerState :=
  { freshState with access_token := some (.str ""), token_expires_at := some 100 }

/-- C1 counterexample: in `emptyTokenState` a cached token exists
(`access_token = some ""`) and its expiry 100 is strictly greater than the
current time 0, yet `get_access_token` performs a network call and returns
the freshly fetched token `"T1"` rather than the cached one: line 52's
truthiness test `if self.access_token and ...` treats the cached empty
string as absent, refuting the claim as stated. -/
theorem token_reuse_counterexample :
    emptyTokenState.access_token = some (.str "") ∧
    emptyTokenState.token_expires_at = some 100 ∧ (0 : Int) < 100 ∧
    (get_access_token emptyTokenState 0 authOk).networkCalls = 1 ∧
    (get_access_token emptyTokenState 0 authOk).result = .ok (.str "T1") :=
  ⟨rfl, rfl, by decide, rfl, rfl⟩

/-- C1 (amended): for every state in which a cached token exists with a
truthy (in particular, non-empty-string) access token and its expiry
timestamp is strictly greater than the nonnegative current time,
`get_access_token` returns that cached access token unchanged, mutates
nothing, and performs no network call; an exchange happens only when the
token is absent, falsy or expired. -/
theorem token_reuse_no_network (s : KrogerState) (now : Int)
    (authResp : HttpResponse) (tok : Json) (e : Int)
    (htok : s.access_token = some tok) (htru : pyTruthy tok = true)
    (he : s.token_expires_at = some e) (hnow : 0 ≤ now) (hlt : now < e) :
    (get_access_token s now authResp).result = .ok tok ∧
    (get_access_token s now authResp).state = s ∧
    (get_access_token s now authResp).networkCalls = 0 := by
  have hne : e ≠ 0 := by omega
  have hv : cachedTokenValid s now = true := by
    simp [cachedTokenValid, htok, he, htru, hne, hlt]
  simp [get_access_token, hv, htok]

/-- Witness for C1 (amended): the cached token `"T1"` expiring at 100 is
returned unchanged at time 0 with no network call. -/
theorem token_reuse_no_network_witness :
    (get_access_token cachedState 0 authOk).result = .ok (.str "T1") ∧
    (get_access_token cachedState 0 authOk).state = cachedState ∧
    (get_access_token cachedState 0 authOk).networkCalls = 0 :=
  token_reuse_no_network cachedState 0 authOk (.str "T1") 100
    rfl rfl rfl (by decide) (by decide)

/-- C7 counterexample: the token endpoint failing with 401 and the locations
endpoint failing with 401 raise the very same error value
(`httpx.HTTPStatusError` with the status and body) — the authentication
failure is not a distinct error kind from the resource-request failure, so
a caller cannot distinguish them by kind. -/
theorem auth_error_kind_counterexample :
    (get_access_token freshState 0 { status := 401, json := .str "Unauthorized" }).result =
      .error (.httpStatusError 401 (.str "Unauthorized")) ∧
    (get_nearest_store_information cachedState 0 authOk
        { status := 401, json := .str "Unauthorized" } "39180").result =
      .error (.httpStatusError 401 (.str "Unauthorized")) :=
  ⟨rfl, rfl⟩

/-- C7 (amended): on a non-success HTTP status from the authorization
endpoint, `get_access_token` raises an `HTTPStatusError` carrying the status
and response body; this is the same error kind the resource endpoints raise
on non-success (only the zero-results condition of the locations call has a
distinct kind, `ValueError`), so an authentication failure is not
distinguishable from a resource-request failure by error kind. -/
theorem auth_failure_http_status_error (s : KrogerState) (now : Int)
    (authResp : HttpResponse)
    (hmiss : cachedTokenValid s now = false)
    (hfail : isSuccess authResp.status = false) :
    (get_access_token s now authResp).result =
      .error (.httpStatusError authResp.status authResp.json) ∧
    (∀ (s2 : KrogerState) (now2 : Int) (a2 locResp : HttpResponse)
        (tok2 : Json) (zip : String),
      (get_access_token s2 now2 a2).result = .ok tok2 →
      isSuccess locResp.status = false →
      (get_nearest_store_information s2 now2 a2 locResp zip).result =
        .error (.httpStatusError locResp.status locResp.json)) := by
  constructor
  · simp [get_access_token, hmiss, hfail]
  · intro s2 now2 a2 locResp tok2 zip htok hlf
    simp [get_nearest_store_information, htok, hlf]

/-- Witness for C7 (amended): concrete 401 failures from the token endpoint
and from the locations endpoint both surface as `HTTPStatusError` with
status and body. -/
theorem auth_failure_http_status_error_witness :
    (get_access_token freshState 7 { status := 401, json := .str "no" }).result =
      .error (.httpStatusError 401 (.str "no")) ∧
    (get_nearest_store_information cachedState 0 authOk
        { status := 401, json := .str "no" } "39180").result =
      .error (.httpStatusError 401 (.str "no")) :=
  ⟨(auth_failure_http_status_error freshState 7 { status := 401, json := .str "no" }
      rfl rfl).1,
   (auth_failure_http_status_error freshState 7 { status := 401, json := .str "no" }
      rfl rfl).2 cachedState 0 authOk { status := 401, json := .str "no" }
      (.str "T1") "39180" rfl rfl⟩

/-- A successful locations response with one store record. -/
def locRespOne : HttpResponse :=
  { status := 200
    json := .obj [("data", .arr [.obj [("locationId", .str "01400943")]])] }

/-- A successful locations/products response with an empty `data` array. -/
def respEmptyData : HttpResponse :=
  { status := 200, json := .obj [("data", .arr [])] }

/-- A successful response whose JSON body lacks the `data` key entirely. -/
def respNoDataKey : HttpResponse :=
  { status := 200, json := .obj [("meta", .obj [("total", .num 0)])] }

/-- C2: on a successful locations response, an empty `data` array makes
`get_nearest_store_information` raise the not-found `ValueError`, and a
non-empty `data` array makes it return exactly the first element, unmodified. -/
theorem nearest_store_empty_or_first (s : KrogerState) (now : Int)
    (authResp locResp : HttpResponse) (zip_code : String) (tok : Json)
    (htok : (get_access_token s now authResp).result = .ok tok)
    (hst : isSuccess locResp.status = true) :
    (dictGet locResp.json "data" = some (.arr []) →
      (get_nearest_store_information s now authResp locResp zip_code).result =
        .error (.valueError ("No locations found for zip code: " ++ zip_code))) ∧
    (∀ (x : Json) (xs : List Json),
      dictGet locResp.json "data" = some (.arr (x :: xs)) →
      (get_nearest_store_information s now authResp locResp zip_code).result = .ok x) := by
  constructor
  · intro hd
    simp [get_nearest_store_information, htok, hst, hd, pyTruthy]
  · intro x xs hd
    simp [get_nearest_store_information, htok, hst, hd, pyTruthy, pySubscriptZero]

/-- Witness for C2: with a valid cached token, the empty-data response raises
the not-found error and the one-element response returns its first record. -/
theorem nearest_store_empty_or_first_witness :
    (get_nearest_store_information cachedState 0 authOk respEmptyData "39180").result =
      .error (.valueError ("No locations found for zip code: " ++ "39180")) ∧
    (get_nearest_store_information cachedState 0 authOk locRespOne "39180").result =
      .ok (.obj [("locationId", .str "01400943")]) :=
  ⟨(nearest_store_empty_or_first cachedState 0 authOk respEmptyData "39180"
      (.str "T1") rfl rfl).1 rfl,
   (nearest_store_empty_or_first cachedState 0 authOk locRespOne "39180"
      (.str "T1") rfl rfl).2 (.obj [("locationId", .str "01400943")]) [] rfl⟩

/-- C3: on a successful products response, `search_products` returns the
`data` array verbatim, and an empty `data` array yields the empty sequence
as an ordinary success, never a not-found error. -/
theorem search_products_data_verbatim (s : KrogerState) (now : Int)
    (authResp prodResp : HttpResponse) (store_id query : String) (limit : Int)
    (tok : Json)
    (htok : (get_access_token s now authResp).result = .ok tok)
    (hst : isSuccess prodResp.status = true) :
    (∀ elems : List Json,
      dictGet prodResp.json "data" = some (.arr elems) →
      (search_products s now authResp prodResp store_id query limit).result =
        .ok (.arr elems)) ∧
    (dictGet prodResp.json "data" = some (.arr []) →
      (search_products s now authResp prodResp store_id query limit).result =
        .ok (.arr [])) := by
  have hgen : ∀ elems : List Json,
      dictGet prodResp.json "data" = some (.arr elems) →
      (search_products s now authResp prodResp store_id query limit).result =
        .ok (.arr elems) := by
    intro elems hd
    simp [search_products, htok, hst, hd]
  exact ⟨hgen, fun hd => hgen [] hd⟩

/-- Witness for C3: a one-product response is returned verbatim and the
empty-data response yields the empty sequence as a success. -/
theorem search_products_data_verbatim_witness :
    (search_products cachedState 0 authOk locRespOne "01400943" "milk" 5).result =
      .ok (.arr [.obj [("locationId", .str "01400943")]]) ∧
    (search_products cachedState 0 authOk respEmptyData "01400943" "milk" 5).result =
      .ok (.arr []) :=
  ⟨(search_products_data_verbatim cachedState 0 authOk locRespOne "01400943" "milk" 5
      (.str "T1") rfl rfl).1 [.obj [("locationId", .str "01400943")]] rfl,
   (search_products_data_verbatim cachedState 0 authOk respEmptyData "01400943" "milk" 5
      (.str "T1") rfl rfl).2 rfl⟩

/-- C10: a successful response whose body lacks the `data` key behaves like
an empty `data` array: `get_nearest_store_information` raises the not-found
`ValueError` (`dict.get` returns `None`, which is falsy) and
`search_products` returns the empty sequence (the `dict.get` default). -/
theorem missing_data_key_like_empty (s : KrogerState) (now : Int)
    (authResp resp : HttpResponse) (zip_code store_id query : String) (limit : Int)
    (tok : Json)
    (htok : (get_access_token s now authResp).result = .ok tok)
    (hst : isSuccess resp.status = true)
    (hmiss : dictGet resp.json "data" = none) :
    (get_nearest_store_information s now authResp resp zip_code).result =
      .error (.valueError ("No locations found for zip code: " ++ zip_code)) ∧
    (search_products s now authResp resp store_id query limit).result =
      .ok (.arr []) := by
  constructor
  · simp [get_nearest_store_information, htok, hst, hmiss, pyTruthy]
  · simp [search_products, htok, hst, hmiss]

/-- Witness for C10: a body without a `data` key gives the not-found error
from the locations operation and the empty sequence from product search. -/
theorem missing_data_key_like_empty_witness :
    (get_nearest_store_information cachedState 0 authOk respNoDataKey "39180").result =
      .error (.valueError ("No locations found for zip code: " ++ "39180")) ∧
    (search_products cachedState 0 authOk respNoDataKey "01400943" "milk" 10).result =
      .ok (.arr []) :=
  missing_data_key_like_empty cachedState 0 authOk respNoDataKey "39180" "01400943"
    "milk" 10 (.str "T1") rfl rfl rfl

/-- Helper for C9: `get_access_token` writes only the token-cache attributes;
every branch leaves `client_id`, `client_secret`, `base_url` and
`location_id` as they were. -/
theorem get_access_token_frame (s : KrogerState) (now : Int) (r : HttpResponse) :
    (get_access_token s now r).state.client_id = s.client_id ∧
    (get_access_token s now r).state.client_secret = s.client_secret ∧
    (get_access_token s now r).state.base_url = s.base_url ∧
    (get_access_token s now r).state.location_id = s.location_id := by
  unfold get_access_token
  split
  · exact ⟨rfl, rfl, rfl, rfl⟩
  · split
    · exact ⟨rfl, rfl, rfl, rfl⟩
    · split
      · exact ⟨rfl, rfl, rfl, rfl⟩
      · split <;> exact ⟨rfl, rfl, rfl, rfl⟩

/-- Helper for C9: the state after `get_nearest_store_information` is exactly
the state after its `get_access_token` call — the operation itself writes no
attribute. -/
theorem nearest_store_state_eq (s : KrogerState) (now : Int)
    (authResp locResp : HttpResponse) (zip_code : String) :
    (get_nearest_store_information s now authResp locResp zip_code).state =
      (get_access_token s now authResp).state := by
  unfold get_nearest_store_information
  cases h : (get_access_token s now authResp).result with
  | error e => simp [h]
  | ok tok =>
    simp only [h]
    split
    · rfl
    · split <;> rfl

/-- Helper for C9: the state after `search_products` is exactly the state
after its `get_access_token` call — the operation itself writes no
attribute. -/
theorem search_products_state_eq (s : KrogerState) (now : Int)
    (authResp prodResp : HttpResponse) (store_id query : String) (limit : Int) :
    (search_products s now authResp prodResp store_id query limit).state =
      (get_access_token s now authResp).state := by
  unfold search_products
  cases h : (get_access_token s now authResp).result with
  | error e => simp [h]
  | ok tok =>
    simp only [h]
    split <;> rfl

/-- C9: none of the three operations ever mutates the credential attributes
`client_id` and `client_secret` (nor `base_url` or `location_id`): they are
set once at construction, and only `access_token` and `token_expires_at`
are written afterwards. -/
theorem credentials_immutable (s : KrogerState) (now : Int)
    (authResp locResp prodResp : HttpResponse)
    (zip_code store_id query : String) (limit : Int) :
    ((get_access_token s now authResp).state.client_id = s.client_id ∧
      (get_access_token s now authResp).state.client_secret = s.client_secret ∧
      (get_access_token s now authResp).state.base_url = s.base_url ∧
      (get_access_token s now authResp).state.location_id = s.location_id) ∧
    ((get_nearest_store_information s now authResp locResp zip_code).state.client_id
        = s.client_id ∧
      (get_nearest_store_information s now authResp locResp zip_code).state.client_secret
        = s.client_secret ∧
      (get_nearest_store_information s now authResp locResp zip_code).state.base_url
        = s.base_url ∧
      (get_nearest_store_information s now authResp locResp zip_code).state.location_id
        = s.location_id) ∧
    ((search_products s now authResp prodResp store_id query limit).state.client_id
        = s.client_id ∧
      (search_products s now authResp prodResp store_id query limit).state.client_secret
        = s.client_secret ∧
      (search_products s now authResp prodResp store_id query limit).state.base_url
        = s.base_url ∧
      (search_products s now authResp prodResp store_id query limit).state.location_id
        = s.location_id) := by
  refine ⟨get_access_token_frame s now authResp, ?_, ?_⟩
  · rw [nearest_store_state_eq]
    exact get_access_token_frame s now authResp
  · rw [search_products_state_eq]
    exact get_access_token_frame s now authResp
